import Mathlib

/-!
Verification of the EcoLedger incremental aggregate-maintenance core.

The definitions below are a shallow embedding of the repository's code:
* `update_user_totals` embeds the SQL function of the same name
  (migration 20250930021343, lines 131-160);
* `carbon_emissions_after_insert` / `_after_update` / `_after_delete` embed
  the row triggers of migration 20251005103115 (lines 41-90);
* `handleSubmit` embeds the client submit flow of
  `src/components/ActivityLogger.tsx` (lines 100-150), including its second,
  explicit RPC call to `update_user_totals` after the insert;
* `ensureProfileExists` embeds the lazy profile creation/backfill of the
  auth provider (unnamed part_000, lines 25-65);
* `fetchLeaderboard` embeds `src/components/Leaderboard.tsx` `fetchLeaderboard`
  (lines 24-50) together with the row-level-security policies on `profiles`
  (owner may read own row; anyone may read rows with `show_on_leaderboard`);
* `categoryBreakdownFor` embeds the category aggregation of the Reports page
  (`fetchReportsData`, lines 292-390 of the Reports component).

Numeric columns (`numeric` in SQL, JS numbers holding exact decimal values at
every input used here) are modelled as `ℚ`; integer columns as `ℤ`.  Division
in the reports percentage is modelled by `JsNum`, which keeps the JavaScript
outcomes Infinity / -Infinity / NaN of dividing by zero explicit.
-/

namespace EcoLedger

abbrev UserId := Nat

abbrev CatId := Nat

/-- Row of `public.activity_categories` (migration 20250930021343, lines 14-21);
timestamps omitted. -/
structure ActivityCategory where
  id : CatId
  name : String
  description : String
  emission_factor : ℚ
  unit : String
deriving DecidableEq, Repr

/-- Row of `public.carbon_emissions` (migration 20250930021343, lines 24-34);
id and timestamps omitted. -/
structure Emission where
  user_id : UserId
  category_id : CatId
  activity_description : String
  quantity : ℚ
  carbon_amount : ℚ
  green_points_earned : ℤ
deriving DecidableEq, Repr

/-- Row of `public.profiles` (migration 20250930021343, lines 2-11, plus the
`show_on_leaderboard` column added in unnamed part_004); id and timestamps
omitted. -/
structure Profile where
  user_id : UserId
  display_name : String
  show_on_leaderboard : Bool
  total_carbon_footprint : ℚ
  total_green_points : ℤ
deriving DecidableEq, Repr

/-- Row of `public.leaderboard` (migration 20250930021343, lines 37-44); only
the columns written by `update_user_totals` are kept (the `rank` column is
never written by any code in the repository). -/
structure LeaderboardRow where
  user_id : UserId
  total_footprint : ℚ
  total_points : ℤ
deriving DecidableEq, Repr

/-- The database state the aggregate-maintenance core touches. -/
structure DB where
  categories : List ActivityCategory
  profiles : List Profile
  emissions : List Emission
  leaderboard : List LeaderboardRow
deriving DecidableEq, Repr

/-- The `GREATEST(0, ...)` update of a profile row performed by
`update_user_totals` (migration 20250930021343, lines 142-147). -/
def applyDeltaProfile (carbon_delta : ℚ) (points_delta : ℤ) (p : Profile) : Profile :=
  { p with
    total_carbon_footprint := max 0 (p.total_carbon_footprint + carbon_delta),
    total_green_points := max 0 (p.total_green_points + points_delta) }

/-- The `INSERT ... ON CONFLICT (user_id) DO UPDATE` on `public.leaderboard`
(migration 20250930021343, lines 150-158), with the totals already read from
the just-updated profile. -/
def upsertLeaderboard (uid : UserId) (tf : ℚ) (tp : ℤ) (lb : List LeaderboardRow) :
    List LeaderboardRow :=
  if lb.any (fun r => r.user_id == uid) then
    lb.map (fun r => if r.user_id == uid then { r with total_footprint := tf, total_points := tp } else r)
  else
    lb ++ [{ user_id := uid, total_footprint := tf, total_points := tp }]

/-- `public.update_user_totals` (migration 20250930021343, lines 131-160).
The `UPDATE` clamps both totals at zero with `GREATEST`; the leaderboard
upsert then re-reads the just-updated totals from `profiles`.  When no profile
row exists the `UPDATE` matches nothing and the subsequent leaderboard insert
violates the `leaderboard_user_id_fkey` foreign key into `profiles`
(migration 20251005103115, lines 15-23), so the whole call errors: that error
outcome is the `none` case. -/
def update_user_totals (uid : UserId) (carbon_delta : ℚ) (points_delta : ℤ) (db : DB) :
    Option DB :=
  match (db.profiles.map
      (fun p => if p.user_id == uid then applyDeltaProfile carbon_delta points_delta p else p)).find?
      (fun p => p.user_id == uid) with
  | some p =>
      some { db with
        profiles := db.profiles.map
          (fun p => if p.user_id == uid then applyDeltaProfile carbon_delta points_delta p else p),
        leaderboard := upsertLeaderboard uid p.total_carbon_footprint p.total_green_points db.leaderboard }
  | none => none

/-- Trigger function `public.carbon_emissions_after_insert`
(migration 20251005103115, lines 41-49). -/
def carbon_emissions_after_insert (e : Emission) (db : DB) : Option DB :=
  update_user_totals e.user_id e.carbon_amount e.green_points_earned db

/-- Trigger function `public.carbon_emissions_after_update`
(migration 20251005103115, lines 51-64). -/
def carbon_emissions_after_update (old new : Emission) (db : DB) : Option DB :=
  update_user_totals new.user_id (new.carbon_amount - old.carbon_amount)
    (new.green_points_earned - old.green_points_earned) db

/-- Trigger function `public.carbon_emissions_after_delete`
(migration 20251005103115, lines 66-74). -/
def carbon_emissions_after_delete (e : Emission) (db : DB) : Option DB :=
  update_user_totals e.user_id (-e.carbon_amount) (-e.green_points_earned) db

/-- An `INSERT` into `carbon_emissions` together with its AFTER INSERT trigger
`trg_carbon_emissions_after_insert` (migration 20251005103115, lines 77-80);
a trigger failure aborts the insert transaction (`none`). -/
def insertEmission (e : Emission) (db : DB) : Option DB :=
  carbon_emissions_after_insert e { db with emissions := db.emissions ++ [e] }

/-- A `DELETE` from `carbon_emissions` together with its AFTER DELETE trigger
(migration 20251005103115, lines 87-90). -/
def deleteEmission (e : Emission) (db : DB) : Option DB :=
  carbon_emissions_after_delete e { db with emissions := db.emissions.erase e }

/-- Whether the character list `pat` is an initial segment of `s`
(helper for the JavaScript `String.prototype.includes` used by the logger). -/
def charsLead : List Char → List Char → Bool
  | [], _ => true
  | _ :: _, [] => false
  | a :: pa, b :: sb => a == b && charsLead pa sb

/-- Whether the character list `pat` occurs contiguously inside `s`. -/
def charsIncl (pat : List Char) : List Char → Bool
  | [] => charsLead pat []
  | b :: sb => charsLead pat (b :: sb) || charsIncl pat sb

/-- JavaScript `s.includes(pat)` on strings. -/
def strIncludes (s pat : String) : Bool :=
  charsIncl pat.toList s.toList

/-- JavaScript `Math.round`: round half toward positive infinity. -/
def jsRound (q : ℚ) : ℤ :=
  ⌊q + (1 : ℚ) / 2⌋

/-- `carbonAmount = parseFloat(quantity) * category.emission_factor`
(ActivityLogger.tsx line 109). -/
def carbonAmountOf (category : ActivityCategory) (quantity : ℚ) : ℚ :=
  quantity * category.emission_factor

/-- `greenPoints = category.name.includes('Recycling') ?
Math.abs(Math.round(carbonAmount * 10)) : 0` (ActivityLogger.tsx line 110). -/
def greenPointsOf (category : ActivityCategory) (quantity : ℚ) : ℤ :=
  if strIncludes category.name "Recycling" then
    |jsRound (carbonAmountOf category quantity * 10)|
  else 0

/-- `handleSubmit` of ActivityLogger.tsx (lines 100-150): look up the
category, compute `carbon_amount` and `green_points_earned`, insert the
emission row (which fires the AFTER INSERT trigger), and then additionally
call the `update_user_totals` RPC with the same delta (lines 126-138); an
error from that RPC is caught and only logged, so the flow keeps the
post-insert state in that case (`Option.getD`). -/
def handleSubmit (uid : UserId) (categoryId : CatId) (quantity : ℚ) (descr : String)
    (db : DB) : Option DB :=
  match db.categories.find? (fun c => c.id == categoryId) with
  | none => none
  | some category =>
    let carbonAmount := carbonAmountOf category quantity
    let greenPoints := greenPointsOf category quantity
    match insertEmission
        { user_id := uid, category_id := categoryId, activity_description := descr,
          quantity := quantity, carbon_amount := carbonAmount,
          green_points_earned := greenPoints } db with
    | none => none
    | some db1 => some ((update_user_totals uid carbonAmount greenPoints db1).getD db1)

/-- `ensureProfileExists` from the auth provider (unnamed part_000, lines
25-65): when no profile row exists for the user, sum that user's emission
history (no clamping) and insert a profile carrying those raw totals. -/
def ensureProfileExists (uid : UserId) (display_name : String) (db : DB) : DB :=
  match db.profiles.find? (fun p => p.user_id == uid) with
  | some _ => db
  | none =>
    let es := db.emissions.filter (fun e => e.user_id == uid)
    let carbon := es.foldl (fun acc e => acc + e.carbon_amount) 0
    let points := es.foldl (fun acc e => acc + e.green_points_earned) 0
    { db with
      profiles := db.profiles ++
        [{ user_id := uid, display_name := display_name, show_on_leaderboard := true,
           total_carbon_footprint := carbon, total_green_points := points }] }

/-- The profile rows a given viewer can read under the row-level-security
policies on `profiles`: the owner policy `auth.uid() = user_id`
(migration 20250930021343, lines 53-54) OR the public policy
`show_on_leaderboard = true` (migration 20251005103115, lines 33-37). -/
def visibleProfiles (viewer : UserId) (db : DB) : List Profile :=
  db.profiles.filter (fun p => p.user_id == viewer || p.show_on_leaderboard)

/-- The `ORDER BY total_carbon_footprint ASC` of the leaderboard query,
modelled as insertion sort (ties resolved in an implementation-defined but
stable way, as in the source). -/
def sortByFootprint (l : List Profile) : List Profile :=
  List.insertionSort (fun a b => a.total_carbon_footprint ≤ b.total_carbon_footprint) l

/-- One rendered leaderboard entry (Leaderboard.tsx lines 7-14). -/
structure LeaderboardEntry where
  user_id : UserId
  display_name : String
  total_footprint : ℚ
  total_points : ℤ
  rank : Nat
deriving DecidableEq, Repr

/-- Build one entry from a profile row (Leaderboard.tsx lines 35-42);
`display_name || 'Anonymous'` is modelled with `""` as the falsy case. -/
def mkEntry (p : Profile) (rank : Nat) : LeaderboardEntry :=
  { user_id := p.user_id,
    display_name := if p.display_name = "" then "Anonymous" else p.display_name,
    total_footprint := p.total_carbon_footprint,
    total_points := p.total_green_points,
    rank := rank }

/-- `data.map((profile, index) => ({... rank: index + 1}))`
(Leaderboard.tsx lines 35-42), carrying the running index. -/
def rankEntries : Nat → List Profile → List LeaderboardEntry
  | _, [] => []
  | i, p :: ps => mkEntry p (i + 1) :: rankEntries (i + 1) ps

/-- `fetchLeaderboard` of Leaderboard.tsx (lines 24-50): read `profiles`
under row-level security, order ascending by `total_carbon_footprint`,
`limit(10)`, and assign `rank = index + 1` positionally. -/
def fetchLeaderboard (viewer : UserId) (db : DB) : List LeaderboardEntry :=
  rankEntries 0 ((sortByFootprint (visibleProfiles viewer db)).take 10)

/-- Whether each entry's `rank` equals its 1-based position, counting from
`i` for the first element. -/
def ranksPositionalFrom : Nat → List LeaderboardEntry → Bool
  | _, [] => true
  | i, e :: es => e.rank == i + 1 && ranksPositionalFrom (i + 1) es

/-- JavaScript number outcomes relevant to the reports percentage: a finite
value, the two infinities produced by dividing a nonzero value by zero, and
NaN produced by `0 / 0`. -/
inductive JsNum where
  | fin (q : ℚ)
  | posInf
  | negInf
  | nan
deriving DecidableEq, Repr

/-- JavaScript division of finite numbers. -/
def jsDivQ (a b : ℚ) : JsNum :=
  if b = 0 then
    if a = 0 then JsNum.nan else if 0 < a then JsNum.posInf else JsNum.negInf
  else JsNum.fin (a / b)

/-- Multiplying the division result by the positive literal `100`
(`(total_emissions / totalEmissions) * 100`, Reports `fetchReportsData`):
infinities and NaN are preserved. -/
def jsMul100 : JsNum → JsNum
  | JsNum.fin q => JsNum.fin (q * 100)
  | x => x

/-- Whether a JavaScript number is a finite (well-defined) value. -/
def JsNum.isFin : JsNum → Bool
  | JsNum.fin _ => true
  | _ => false

/-- `emission.category?.name || 'Unknown'` from the reports aggregation. -/
def categoryName (cats : List ActivityCategory) (e : Emission) : String :=
  match cats.find? (fun c => c.id == e.category_id) with
  | some c => c.name
  | none => "Unknown"

/-- `categoryMap.set(name, (categoryMap.get(name) || 0) + carbon_amount)`:
upsert into an association list that keeps first-insertion key order, as a
JavaScript `Map` does. -/
def addToCategory (name : String) (c : ℚ) : List (String × ℚ) → List (String × ℚ)
  | [] => [(name, c)]
  | (n, t) :: rest =>
    if n = name then (n, t + c) :: rest else (n, t) :: addToCategory name c rest

/-- The per-category sums built by one pass over the user's emissions
(Reports `fetchReportsData`, the `categoryMap` accumulation). -/
def categoryTotals (cats : List ActivityCategory) (es : List Emission) :
    List (String × ℚ) :=
  es.foldl (fun m e => addToCategory (categoryName cats e) e.carbon_amount m) []

/-- `totalEmissions += emission.carbon_amount` over the user's emissions. -/
def totalEmissionsOf (es : List Emission) : ℚ :=
  es.foldl (fun acc e => acc + e.carbon_amount) 0

/-- One row of the rendered category breakdown (Reports, lines 262-266). -/
structure CategoryBreakdown where
  category_name : String
  total_emissions : ℚ
  percentage : JsNum
deriving DecidableEq, Repr

/-- The `.sort((a, b) => b.total_emissions - a.total_emissions)` of the
category breakdown: descending by `total_emissions`. -/
def sortByEmissionsDesc (l : List CategoryBreakdown) : List CategoryBreakdown :=
  List.insertionSort (fun a b => b.total_emissions ≤ a.total_emissions) l

/-- The user's rows from `carbon_emissions` (`eq('user_id', user?.id)`). -/
def userEmissions (uid : UserId) (db : DB) : List Emission :=
  db.emissions.filter (fun e => e.user_id == uid)

/-- The category breakdown of Reports `fetchReportsData`: group the user's
emissions by category name, then map each group to its total and its
percentage `(total_emissions / totalEmissions) * 100` — with no guard on a
zero grand total — and sort descending by total. -/
def categoryBreakdownFor (uid : UserId) (db : DB) : List CategoryBreakdown :=
  sortByEmissionsDesc
    ((categoryTotals db.categories (userEmissions uid db)).map
      (fun nt => { category_name := nt.1, total_emissions := nt.2,
                   percentage := jsMul100
                     (jsDivQ nt.2 (totalEmissionsOf (userEmissions uid db))) }))

/-- Seeded category `'Waste - Recycling'` with `emission_factor = -0.85`
(migration 20250930021343, line 130). -/
def recyclingCat : ActivityCategory :=
  { id := 7, name := "Waste - Recycling", description := "Recycling waste (negative emissions)",
    emission_factor := -85/100, unit := "kg" }

/-- Seeded category `'Food - Meat'` with `emission_factor = 27.0`
(migration 20250930021343, line 128). -/
def meatCat : ActivityCategory :=
  { id := 5, name := "Food - Meat", description := "Red meat consumption",
    emission_factor := 27, unit := "kg" }

/-- Run a sequence of activity insertions (each with its trigger); a failure
aborts the remainder, as each failed trigger aborts its transaction. -/
def runInserts : List Emission → DB → Option DB
  | [], db => some db
  | e :: es, db =>
    match insertEmission e db with
    | some db1 => runInserts es db1
    | none => none

/-- Run a sequence of activity deletions (each with its trigger). -/
def runDeletes : List Emission → DB → Option DB
  | [], db => some db
  | e :: es, db =>
    match deleteEmission e db with
    | some db1 => runDeletes es db1
    | none => none

/-- Sum of the `carbon_amount` values of a record list. -/
def sumC (rs : List Emission) : ℚ :=
  (rs.map (fun e => e.carbon_amount)).sum

/-- Sum of the `green_points_earned` values of a record list. -/
def sumP (rs : List Emission) : ℤ :=
  (rs.map (fun e => e.green_points_earned)).sum

/-! ### Concrete instances used by witnesses and counterexamples -/

/-- A profile with totals `(3, 4)`. -/
def pW : Profile :=
  { user_id := 1, display_name := "u", show_on_leaderboard := true,
    total_carbon_footprint := 3, total_green_points := 4 }

/-- A one-profile database with totals `(3, 4)`. -/
def dbW : DB :=
  { categories := [], profiles := [pW], emissions := [], leaderboard := [] }

/-- Old version of an activity record: carbon 1, points 1. -/
def oldW : Emission :=
  { user_id := 1, category_id := 1, activity_description := "a", quantity := 1,
    carbon_amount := 1, green_points_earned := 1 }

/-- New version of the same activity record: carbon 2, points 2. -/
def newW : Emission :=
  { user_id := 1, category_id := 1, activity_description := "a", quantity := 2,
    carbon_amount := 2, green_points_earned := 2 }

/-- A profile with zero totals. -/
def pZero : Profile :=
  { user_id := 1, display_name := "u", show_on_leaderboard := true,
    total_carbon_footprint := 0, total_green_points := 0 }

/-- A one-profile database with zero totals and no activity history. -/
def dbZero : DB :=
  { categories := [], profiles := [pZero], emissions := [], leaderboard := [] }

/-- A recycling activity record: carbon −4.25, points 42. -/
def negEmission : Emission :=
  { user_id := 1, category_id := 7, activity_description := "recycled 5kg",
    quantity := 5, carbon_amount := -17/4, green_points_earned := 42 }

/-- A database holding a recycling activity history but no profile row yet. -/
def dbC3 : DB :=
  { categories := [recyclingCat], profiles := [], emissions := [negEmission], leaderboard := [] }

/-- A one-profile, one-category database for the double-application scenario. -/
def dbC1 : DB :=
  { categories := [meatCat], profiles := [pZero], emissions := [], leaderboard := [] }

/-- A one-profile database seeded with the recycling category. -/
def dbC5 : DB :=
  { categories := [recyclingCat], profiles := [pZero], emissions := [], leaderboard := [] }

/-- A profile that opted out of the leaderboard. -/
def pOptOut : Profile :=
  { user_id := 1, display_name := "alice", show_on_leaderboard := false,
    total_carbon_footprint := 5, total_green_points := 0 }

/-- A database whose only profile opted out of the leaderboard. -/
def dbC6 : DB :=
  { categories := [], profiles := [pOptOut], emissions := [], leaderboard := [] }

/-- An opted-in profile belonging to another user. -/
def pIn : Profile :=
  { user_id := 2, display_name := "bob", show_on_leaderboard := true,
    total_carbon_footprint := 1, total_green_points := 0 }

/-- A database whose only profile is `pIn`. -/
def dbC6w : DB :=
  { categories := [], profiles := [pIn], emissions := [], leaderboard := [] }

/-- A reporting category with emission factor 1. -/
def catA : ActivityCategory :=
  { id := 1, name := "A", description := "", emission_factor := 1, unit := "kg" }

/-- A second reporting category with emission factor 1. -/
def catB : ActivityCategory :=
  { id := 2, name := "B", description := "", emission_factor := 1, unit := "kg" }

/-- Two activity records whose carbon amounts sum to zero, in distinct
categories. -/
def dbC8 : DB :=
  { categories := [catA, catB], profiles := [], leaderboard := [],
    emissions :=
      [{ user_id := 1, category_id := 1, activity_description := "a", quantity := 1,
         carbon_amount := 1, green_points_earned := 0 },
       { user_id := 1, category_id := 2, activity_description := "b", quantity := 1,
         carbon_amount := -1, green_points_earned := 0 }] }

/-- A single activity record with carbon 1 in category `catA`. -/
def dbC8w : DB :=
  { categories := [catA], profiles := [], leaderboard := [],
    emissions :=
      [{ user_id := 1, category_id := 1, activity_description := "a", quantity := 1,
         carbon_amount := 1, green_points_earned := 0 }] }

/-! ### Helper lemmas about `update_user_totals` -/

theorem applyDeltaProfile_user_id (cd : ℚ) (pd : ℤ) (p : Profile) :
    (applyDeltaProfile cd pd p).user_id = p.user_id := rfl

theorem find?_map_applyDelta (uid : UserId) (cd : ℚ) (pd : ℤ) (l : List Profile) :
    (l.map (fun p => if p.user_id == uid then applyDeltaProfile cd pd p else p)).find?
        (fun p => p.user_id == uid)
      = (l.find? (fun p => p.user_id == uid)).map (fun p => applyDeltaProfile cd pd p) := by
  induction l with
  | nil => rfl
  | cons p l ih =>
    cases hb : (p.user_id == uid) with
    | true =>
      rw [List.map_cons, if_pos hb]
      simp only [List.find?_cons, applyDeltaProfile_user_id, hb]
      rfl
    | false =>
      have hn : ¬ ((p.user_id == uid) = true) := by simp [hb]
      rw [List.map_cons, if_neg hn]
      simp only [List.find?_cons, applyDeltaProfile_user_id, hb]
      exact ih

theorem update_user_totals_eq_some (uid : UserId) (cd : ℚ) (pd : ℤ) (db : DB) (p : Profile)
    (h : db.profiles.find? (fun q => q.user_id == uid) = some p) :
    update_user_totals uid cd pd db =
      some { db with
        profiles := db.profiles.map
          (fun q => if q.user_id == uid then applyDeltaProfile cd pd q else q),
        leaderboard := upsertLeaderboard uid
          (max 0 (p.total_carbon_footprint + cd)) (max 0 (p.total_green_points + pd))
          db.leaderboard } := by
  unfold update_user_totals
  rw [find?_map_applyDelta, h]
  rfl

theorem update_user_totals_eq_none (uid : UserId) (cd : ℚ) (pd : ℤ) (db : DB)
    (h : db.profiles.find? (fun q => q.user_id == uid) = none) :
    update_user_totals uid cd pd db = none := by
  unfold update_user_totals
  rw [find?_map_applyDelta, h]
  rfl

theorem find?_updateRow (uid : UserId) (tf : ℚ) (tp : ℤ) (lb : List LeaderboardRow)
    (h : lb.any (fun r => r.user_id == uid) = true) :
    (lb.map (fun r => if r.user_id == uid then
        { r with total_footprint := tf, total_points := tp } else r)).find?
      (fun r => r.user_id == uid)
      = some { user_id := uid, total_footprint := tf, total_points := tp } := by
  induction lb with
  | nil => simp at h
  | cons r rs ih =>
    cases hr : (r.user_id == uid) with
    | true =>
      have hid : r.user_id = uid := by simpa using hr
      rw [List.map_cons, if_pos hr]
      simp only [List.find?_cons, hr, hid, beq_self_eq_true]
    | false =>
      simp only [List.any_cons, hr, Bool.false_or] at h
      have hn : ¬ ((r.user_id == uid) = true) := by simp [hr]
      rw [List.map_cons, if_neg hn]
      simp only [List.find?_cons, hr]
      exact ih h

theorem find?_appendRow (uid : UserId) (tf : ℚ) (tp : ℤ) (lb : List LeaderboardRow)
    (h : lb.any (fun r => r.user_id == uid) = false) :
    ((lb ++ [({ user_id := uid, total_footprint := tf, total_points := tp } : LeaderboardRow)]).find?
      (fun r => r.user_id == uid))
      = some { user_id := uid, total_footprint := tf, total_points := tp } := by
  induction lb with
  | nil => simp [List.find?_cons]
  | cons r rs ih =>
    simp only [List.any_cons, Bool.or_eq_false_iff] at h
    rw [List.cons_append]
    simp only [List.find?_cons, h.1]
    exact ih h.2

theorem find?_upsertLeaderboard (uid : UserId) (tf : ℚ) (tp : ℤ) (lb : List LeaderboardRow) :
    (upsertLeaderboard uid tf tp lb).find? (fun r => r.user_id == uid)
      = some { user_id := uid, total_footprint := tf, total_points := tp } := by
  unfold upsertLeaderboard
  by_cases h : lb.any (fun r => r.user_id == uid) = true
  · rw [if_pos h]
    exact find?_updateRow uid tf tp lb h
  · rw [if_neg h]
    exact find?_appendRow uid tf tp lb (by simpa using h)

/-- C2: for a user whose aggregate row exists with totals `(C, P)`, one call of
`update_user_totals` with delta `(cd, pd)` sets `total_carbon_footprint` to
`max 0 (C + cd)` and `total_green_points` to `max 0 (P + pd)`, and upserts the
user's leaderboard row with exactly these just-updated values. -/
theorem update_user_totals_clamps_and_copies (db : DB) (uid : UserId) (cd : ℚ) (pd : ℤ)
    (p : Profile) (h : db.profiles.find? (fun q => q.user_id == uid) = some p) :
    ∃ db', update_user_totals uid cd pd db = some db' ∧
      db'.profiles.find? (fun q => q.user_id == uid) = some (applyDeltaProfile cd pd p) ∧
      (applyDeltaProfile cd pd p).total_carbon_footprint
        = max 0 (p.total_carbon_footprint + cd) ∧
      (applyDeltaProfile cd pd p).total_green_points
        = max 0 (p.total_green_points + pd) ∧
      db'.leaderboard.find? (fun r => r.user_id == uid)
        = some { user_id := uid,
                 total_footprint := max 0 (p.total_carbon_footprint + cd),
                 total_points := max 0 (p.total_green_points + pd) } := by
  refine ⟨_, update_user_totals_eq_some uid cd pd db p h, ?_, rfl, rfl, ?_⟩
  · rw [find?_map_applyDelta, h]
    rfl
  · exact find?_upsertLeaderboard uid _ _ db.leaderboard

/-- Concrete instance of C2 at a profile with totals `(3, 4)` and delta `(2, -1)`. -/
theorem update_user_totals_clamps_and_copies_witness :
    ∃ db', update_user_totals 1 2 (-1)
        { categories := [], emissions := [], leaderboard := [],
          profiles := [{ user_id := 1, display_name := "u", show_on_leaderboard := true,
                         total_carbon_footprint := 3, total_green_points := 4 }] } = some db' ∧
      db'.profiles.find? (fun q => q.user_id == 1)
        = some (applyDeltaProfile 2 (-1)
            { user_id := 1, display_name := "u", show_on_leaderboard := true,
              total_carbon_footprint := 3, total_green_points := 4 }) ∧
      (applyDeltaProfile 2 (-1)
          { user_id := 1, display_name := "u", show_on_leaderboard := true,
            total_carbon_footprint := 3, total_green_points := 4 }).total_carbon_footprint
        = max 0 ((3 : ℚ) + 2) ∧
      (applyDeltaProfile 2 (-1)
          { user_id := 1, display_name := "u", show_on_leaderboard := true,
            total_carbon_footprint := 3, total_green_points := 4 }).total_green_points
        = max 0 ((4 : ℤ) + -1) ∧
      db'.leaderboard.find? (fun r => r.user_id == 1)
        = some { user_id := 1, total_footprint := max 0 ((3 : ℚ) + 2),
                 total_points := max 0 ((4 : ℤ) + -1) } :=
  update_user_totals_clamps_and_copies _ 1 2 (-1) _ rfl

/-! ### C9: behaviour of `update_user_totals` without an aggregate row -/

/-- C9 counterexample: invoked for a user whose aggregate row does not exist,
`update_user_totals` does not create any row with a zero baseline — its
`UPDATE` matches nothing and the leaderboard insert violates the foreign key
into `profiles`, so the call fails. -/
theorem update_user_totals_fails_without_profile :
    update_user_totals 1 5 3
      { categories := [], profiles := [], emissions := [], leaderboard := [] } = none := rfl

/-- C9 (amended): when no aggregate row exists for the user,
`update_user_totals` fails (no lazy zero-baseline initialization happens
inside it; profile creation is done separately by `ensureProfileExists`). -/
theorem update_user_totals_none_of_missing_profile (db : DB) (uid : UserId) (cd : ℚ) (pd : ℤ)
    (h : db.profiles.find? (fun q => q.user_id == uid) = none) :
    update_user_totals uid cd pd db = none :=
  update_user_totals_eq_none uid cd pd db h

/-- Concrete instance of the amended C9: a database whose only profile belongs
to another user. -/
theorem update_user_totals_none_of_missing_profile_witness :
    update_user_totals 2 7 1 dbW = none :=
  update_user_totals_none_of_missing_profile dbW 2 7 1 rfl

/-! ### C3: non-negativity of the stored totals -/

/-- C3 counterexample: the lazy profile creation (`ensureProfileExists`)
backfills the raw, unclamped sum of the user's `carbon_amount` history, so a
history with a negative sum creates a profile whose
`total_carbon_footprint` is negative — the invariant does not hold in that
reachable state. -/
theorem ensureProfileExists_negative_total :
    (ensureProfileExists 1 "User" dbC3).profiles.find? (fun q => q.user_id == 1)
      = some { user_id := 1, display_name := "User", show_on_leaderboard := true,
               total_carbon_footprint := -17/4, total_green_points := 42 }
    ∧ ((-17/4 : ℚ) < 0) := by
  constructor
  · norm_num [ensureProfileExists, dbC3, negEmission, List.find?, List.filter, List.foldl]
  · norm_num

/-- C3 (amended): every `update_user_totals` application preserves
non-negativity of all stored profile totals (the clamp guarantees it); the
invariant can only be broken by the backfill paths, which copy raw sums. -/
theorem update_user_totals_preserves_nonneg (db : DB) (uid : UserId) (cd : ℚ) (pd : ℤ)
    (db' : DB) (h : update_user_totals uid cd pd db = some db')
    (hdb : ∀ p ∈ db.profiles, 0 ≤ p.total_carbon_footprint ∧ 0 ≤ p.total_green_points) :
    ∀ p ∈ db'.profiles, 0 ≤ p.total_carbon_footprint ∧ 0 ≤ p.total_green_points := by
  unfold update_user_totals at h
  split at h
  · injection h with h
    subst h
    intro p hp
    simp only [List.mem_map] at hp
    obtain ⟨r, hr, rfl⟩ := hp
    by_cases hb : (r.user_id == uid) = true
    · rw [if_pos hb]
      exact ⟨le_max_left _ _, le_max_left _ _⟩
    · rw [if_neg hb]
      exact hdb r hr
  · cases h

/-- Concrete instance of the amended C3 at totals `(3, 4)` and delta `(0, 0)`. -/
theorem update_user_totals_preserves_nonneg_witness :
    0 ≤ pW.total_carbon_footprint ∧ 0 ≤ pW.total_green_points :=
  update_user_totals_preserves_nonneg dbW 1 0 0
    { categories := [], profiles := [pW], emissions := [],
      leaderboard := [{ user_id := 1, total_footprint := 3, total_points := 4 }] }
    (by norm_num [update_user_totals, dbW, pW, applyDeltaProfile, upsertLeaderboard, List.find?])
    (by decide) pW (List.mem_singleton.mpr rfl)

/-! ### C7: update-delta round trip -/

theorem applyDeltaProfile_roundtrip (cd cd' : ℚ) (pd pd' : ℤ) (p : Profile)
    (hc : cd + cd' = 0) (hp : pd + pd' = 0)
    (h1 : 0 ≤ p.total_carbon_footprint + cd) (h2 : 0 ≤ p.total_green_points + pd)
    (h3 : 0 ≤ p.total_carbon_footprint) (h4 : 0 ≤ p.total_green_points) :
    applyDeltaProfile cd' pd' (applyDeltaProfile cd pd p) = p := by
  cases p with
  | mk pid dn so C P =>
    simp only [applyDeltaProfile] at *
    simp only [Profile.mk.injEq, true_and]
    constructor
    · rw [max_eq_right h1]
      have hC : C + cd + cd' = C := by
        rw [add_assoc, hc, add_zero]
      rw [hC, max_eq_right h3]
    · rw [max_eq_right h2]
      have hP : P + pd + pd' = P := by
        rw [add_assoc, hp, add_zero]
      rw [hP, max_eq_right h4]

theorem update_user_totals_step (uid : UserId) (d : DB) (q : Profile) (cd : ℚ) (pd : ℤ)
    (hq : d.profiles.find? (fun x => x.user_id == uid) = some q) :
    ∃ d', update_user_totals uid cd pd d = some d' ∧
      d'.profiles.find? (fun x => x.user_id == uid) = some (applyDeltaProfile cd pd q) := by
  refine ⟨_, update_user_totals_eq_some uid cd pd d q hq, ?_⟩
  show (d.profiles.map
      (fun p => if p.user_id == uid then applyDeltaProfile cd pd p else p)).find?
      (fun p => p.user_id == uid) = some (applyDeltaProfile cd pd q)
  rw [find?_map_applyDelta, hq]
  rfl

/-- C7: for a user whose aggregate row has totals `(C, P)`, firing the update
trigger with delta `(new − old)` and then with the reverse delta `(old − new)`
restores the pre-update profile exactly, provided neither application clamps
at zero. -/
theorem update_delta_roundtrip (db : DB) (uid : UserId) (old new : Emission) (p : Profile)
    (h : db.profiles.find? (fun q => q.user_id == uid) = some p)
    (hnew : new.user_id = uid) (hold : old.user_id = uid)
    (h1 : 0 ≤ p.total_carbon_footprint + (new.carbon_amount - old.carbon_amount))
    (h2 : 0 ≤ p.total_green_points + (new.green_points_earned - old.green_points_earned))
    (h3 : 0 ≤ p.total_carbon_footprint) (h4 : 0 ≤ p.total_green_points) :
    ∃ db1 db2,
      carbon_emissions_after_update old new db = some db1 ∧
      carbon_emissions_after_update new old db1 = some db2 ∧
      db2.profiles.find? (fun q => q.user_id == uid) = some p := by
  obtain ⟨db1, e1, f1⟩ := update_user_totals_step uid db p
    (new.carbon_amount - old.carbon_amount) (new.green_points_earned - old.green_points_earned) h
  obtain ⟨db2, e2, f2⟩ := update_user_totals_step uid db1
    (applyDeltaProfile (new.carbon_amount - old.carbon_amount)
      (new.green_points_earned - old.green_points_earned) p)
    (old.carbon_amount - new.carbon_amount) (old.green_points_earned - new.green_points_earned) f1
  refine ⟨db1, db2, ?_, ?_, ?_⟩
  · show update_user_totals new.user_id (new.carbon_amount - old.carbon_amount)
      (new.green_points_earned - old.green_points_earned) db = some db1
    rw [hnew]
    exact e1
  · show update_user_totals old.user_id (old.carbon_amount - new.carbon_amount)
      (old.green_points_earned - new.green_points_earned) db1 = some db2
    rw [hold]
    exact e2
  · rw [f2, applyDeltaProfile_roundtrip _ _ _ _ p (by ring) (by ring) h1 h2 h3 h4]

/-- Concrete instance of C7: totals `(3, 4)`, record updated from carbon 1,
points 1 to carbon 2, points 2 and back. -/
theorem update_delta_roundtrip_witness :
    ∃ db1 db2,
      carbon_emissions_after_update oldW newW dbW = some db1 ∧
      carbon_emissions_after_update newW oldW db1 = some db2 ∧
      db2.profiles.find? (fun q => q.user_id == 1) = some pW :=
  update_delta_roundtrip dbW 1 oldW newW pW rfl rfl rfl
    (by norm_num [pW, newW, oldW]) (by norm_num [pW, newW, oldW])
    (by norm_num [pW]) (by norm_num [pW])

/-! ### C4: inserting then deleting a user's whole history -/

/-- C4 counterexample: inserting a carbon-negative record into zero totals
clamps the footprint at 0 and the later deletion re-adds the positive
magnitude, leaving totals `(4.25, 0)` instead of `(0, 0)`. -/
theorem insert_delete_leaves_residue :
    ((insertEmission negEmission dbZero).bind (fun db1 => deleteEmission negEmission db1)).bind
        (fun db2 => db2.profiles.find? (fun q => q.user_id == 1))
      = some { user_id := 1, display_name := "u", show_on_leaderboard := true,
               total_carbon_footprint := 17/4, total_green_points := 0 }
    ∧ ((17/4 : ℚ) ≠ 0) := by
  constructor
  · norm_num [insertEmission, deleteEmission, carbon_emissions_after_insert,
      carbon_emissions_after_delete, update_user_totals, applyDeltaProfile, upsertLeaderboard,
      dbZero, pZero, negEmission, List.find?, Option.bind, List.erase]
  · norm_num

theorem update_user_totals_single (uid : UserId) (cd : ℚ) (pd : ℤ)
    (cats : List ActivityCategory) (ems : List Emission) (lb : List LeaderboardRow)
    (p : Profile) (hpid : p.user_id = uid) :
    update_user_totals uid cd pd
        { categories := cats, profiles := [p], emissions := ems, leaderboard := lb }
      = some { categories := cats,
               profiles := [applyDeltaProfile cd pd p],
               emissions := ems,
               leaderboard := upsertLeaderboard uid
                 (max 0 (p.total_carbon_footprint + cd))
                 (max 0 (p.total_green_points + pd)) lb } := by
  have hfind : (([p] : List Profile).find? (fun q => q.user_id == uid)) = some p := by
    simp [List.find?, hpid]
  rw [update_user_totals_eq_some uid cd pd _ p hfind]
  congr 2
  simp [hpid]

theorem sum_nonneg_of_mem_carbon (rs : List Emission) (hc : ∀ e ∈ rs, 0 ≤ e.carbon_amount) :
    0 ≤ sumC rs := by
  refine List.sum_nonneg ?_
  intro x hx
  obtain ⟨e, he, rfl⟩ := List.mem_map.mp hx
  exact hc e he

theorem sum_nonneg_of_mem_points (rs : List Emission) (hp : ∀ e ∈ rs, 0 ≤ e.green_points_earned) :
    0 ≤ sumP rs := by
  refine List.sum_nonneg ?_
  intro x hx
  obtain ⟨e, he, rfl⟩ := List.mem_map.mp hx
  exact hp e he

theorem sumC_cons (e : Emission) (es : List Emission) :
    sumC (e :: es) = e.carbon_amount + sumC es := by
  simp [sumC]

theorem sumP_cons (e : Emission) (es : List Emission) :
    sumP (e :: es) = e.green_points_earned + sumP es := by
  simp [sumP]

theorem runInserts_single (uid : UserId) (rs : List Emission)
    (hc : ∀ e ∈ rs, 0 ≤ e.carbon_amount) (hp : ∀ e ∈ rs, 0 ≤ e.green_points_earned)
    (hu : ∀ e ∈ rs, e.user_id = uid) :
    ∀ (cats : List ActivityCategory) (ems : List Emission) (lb : List LeaderboardRow)
      (p : Profile), p.user_id = uid →
      0 ≤ p.total_carbon_footprint → 0 ≤ p.total_green_points →
      ∃ (cats' : List ActivityCategory) (ems' : List Emission) (lb' : List LeaderboardRow)
        (p' : Profile),
        runInserts rs { categories := cats, profiles := [p], emissions := ems, leaderboard := lb }
          = some { categories := cats', profiles := [p'], emissions := ems', leaderboard := lb' } ∧
        p'.user_id = uid ∧
        p'.total_carbon_footprint = p.total_carbon_footprint + sumC rs ∧
        p'.total_green_points = p.total_green_points + sumP rs := by
  induction rs with
  | nil =>
    intro cats ems lb p hpid hc0 hp0
    exact ⟨cats, ems, lb, p, rfl, hpid, by simp [sumC], by simp [sumP]⟩
  | cons e es ih =>
    intro cats ems lb p hpid hc0 hp0
    have hce : 0 ≤ e.carbon_amount := hc e (List.mem_cons_self e es)
    have hpe : 0 ≤ e.green_points_earned := hp e (List.mem_cons_self e es)
    have hue : e.user_id = uid := hu e (List.mem_cons_self e es)
    have hstep : insertEmission e
        { categories := cats, profiles := [p], emissions := ems, leaderboard := lb }
        = some { categories := cats,
                 profiles := [applyDeltaProfile e.carbon_amount e.green_points_earned p],
                 emissions := ems ++ [e],
                 leaderboard := upsertLeaderboard uid
                   (max 0 (p.total_carbon_footprint + e.carbon_amount))
                   (max 0 (p.total_green_points + e.green_points_earned)) lb } := by
      unfold insertEmission carbon_emissions_after_insert
      rw [hue]
      exact update_user_totals_single uid _ _ cats (ems ++ [e]) lb p hpid
    have ht1 : (applyDeltaProfile e.carbon_amount e.green_points_earned p).total_carbon_footprint
        = p.total_carbon_footprint + e.carbon_amount :=
      max_eq_right (add_nonneg hc0 hce)
    have ht2 : (applyDeltaProfile e.carbon_amount e.green_points_earned p).total_green_points
        = p.total_green_points + e.green_points_earned :=
      max_eq_right (add_nonneg hp0 hpe)
    obtain ⟨cats', ems', lb', p', hrun, hid', htc, htp⟩ :=
      ih (fun x hx => hc x (List.mem_cons_of_mem e hx))
        (fun x hx => hp x (List.mem_cons_of_mem e hx))
        (fun x hx => hu x (List.mem_cons_of_mem e hx))
        cats (ems ++ [e])
        (upsertLeaderboard uid (max 0 (p.total_carbon_footprint + e.carbon_amount))
          (max 0 (p.total_green_points + e.green_points_earned)) lb)
        (applyDeltaProfile e.carbon_amount e.green_points_earned p)
        hpid (by rw [ht1]; exact add_nonneg hc0 hce) (by rw [ht2]; exact add_nonneg hp0 hpe)
    refine ⟨cats', ems', lb', p', ?_, hid', ?_, ?_⟩
    · show runInserts (e :: es) _ = _
      unfold runInserts
      rw [hstep]
      exact hrun
    · rw [htc, ht1, sumC_cons, add_assoc]
    · rw [htp, ht2, sumP_cons, add_assoc]

theorem runDeletes_single (uid : UserId) (rs : List Emission)
    (hc : ∀ e ∈ rs, 0 ≤ e.carbon_amount) (hp : ∀ e ∈ rs, 0 ≤ e.green_points_earned)
    (hu : ∀ e ∈ rs, e.user_id = uid) :
    ∀ (cats : List ActivityCategory) (ems : List Emission) (lb : List LeaderboardRow)
      (p : Profile) (a : ℚ) (b : ℤ), p.user_id = uid →
      p.total_carbon_footprint = a + sumC rs → p.total_green_points = b + sumP rs →
      0 ≤ a → 0 ≤ b →
      ∃ (cats' : List ActivityCategory) (ems' : List Emission) (lb' : List LeaderboardRow)
        (p' : Profile),
        runDeletes rs { categories := cats, profiles := [p], emissions := ems, leaderboard := lb }
          = some { categories := cats', profiles := [p'], emissions := ems', leaderboard := lb' } ∧
        p'.user_id = uid ∧ p'.total_carbon_footprint = a ∧ p'.total_green_points = b := by
  induction rs with
  | nil =>
    intro cats ems lb p a b hpid hca hpb ha hb
    exact ⟨cats, ems, lb, p, rfl, hpid, by rw [hca]; simp [sumC], by rw [hpb]; simp [sumP]⟩
  | cons e es ih =>
    intro cats ems lb p a b hpid hca hpb ha hb
    have hue : e.user_id = uid := hu e (List.mem_cons_self e es)
    have hcs : 0 ≤ sumC es :=
      sum_nonneg_of_mem_carbon es (fun x hx => hc x (List.mem_cons_of_mem e hx))
    have hps : 0 ≤ sumP es :=
      sum_nonneg_of_mem_points es (fun x hx => hp x (List.mem_cons_of_mem e hx))
    have hstep : deleteEmission e
        { categories := cats, profiles := [p], emissions := ems, leaderboard := lb }
        = some { categories := cats,
                 profiles := [applyDeltaProfile (-e.carbon_amount) (-e.green_points_earned) p],
                 emissions := ems.erase e,
                 leaderboard := upsertLeaderboard uid
                   (max 0 (p.total_carbon_footprint + -e.carbon_amount))
                   (max 0 (p.total_green_points + -e.green_points_earned)) lb } := by
      unfold deleteEmission carbon_emissions_after_delete
      rw [hue]
      exact update_user_totals_single uid _ _ cats (ems.erase e) lb p hpid
    have harith : p.total_carbon_footprint + -e.carbon_amount = a + sumC es := by
      rw [hca, sumC_cons]
      ring
    have harith2 : p.total_green_points + -e.green_points_earned = b + sumP es := by
      rw [hpb, sumP_cons]
      ring
    have ht1 : (applyDeltaProfile (-e.carbon_amount) (-e.green_points_earned) p).total_carbon_footprint
        = a + sumC es := by
      show max 0 (p.total_carbon_footprint + -e.carbon_amount) = a + sumC es
      rw [harith]
      exact max_eq_right (add_nonneg ha hcs)
    have ht2 : (applyDeltaProfile (-e.carbon_amount) (-e.green_points_earned) p).total_green_points
        = b + sumP es := by
      show max 0 (p.total_green_points + -e.green_points_earned) = b + sumP es
      rw [harith2]
      exact max_eq_right (add_nonneg hb hps)
    obtain ⟨cats', ems', lb', p', hrun, hid', htc, htp⟩ :=
      ih (fun x hx => hc x (List.mem_cons_of_mem e hx))
        (fun x hx => hp x (List.mem_cons_of_mem e hx))
        (fun x hx => hu x (List.mem_cons_of_mem e hx))
        cats (ems.erase e)
        (upsertLeaderboard uid (max 0 (p.total_carbon_footprint + -e.carbon_amount))
          (max 0 (p.total_green_points + -e.green_points_earned)) lb)
        (applyDeltaProfile (-e.carbon_amount) (-e.green_points_earned) p)
        a b hpid ht1 ht2 ha hb
    refine ⟨cats', ems', lb', p', ?_, hid', htc, htp⟩
    show runDeletes (e :: es) _ = _
    unfold runDeletes
    rw [hstep]
    exact hrun

/-- C4 (amended): starting from a profile with zero totals, inserting a list
of records all of whose carbon amounts and point rewards are non-negative and
then deleting every one of them drives both totals back to exactly 0 (no
clamp fires along the way).  With negative-carbon records the clamp can leave
a positive residue — see the counterexample. -/
theorem insert_all_delete_all_exact_zero (uid : UserId) (rs : List Emission)
    (hc : ∀ e ∈ rs, 0 ≤ e.carbon_amount) (hp : ∀ e ∈ rs, 0 ≤ e.green_points_earned)
    (hu : ∀ e ∈ rs, e.user_id = uid)
    (db : DB) (p : Profile) (hdb : db.profiles = [p]) (hpid : p.user_id = uid)
    (hc0 : p.total_carbon_footprint = 0) (hp0 : p.total_green_points = 0) :
    ∃ db', (runInserts rs db).bind (runDeletes rs) = some db' ∧
      ∃ p', db'.profiles.find? (fun q => q.user_id == uid) = some p' ∧
        p'.total_carbon_footprint = 0 ∧ p'.total_green_points = 0 := by
  obtain ⟨cats, prof, ems, lb⟩ := db
  simp only at hdb
  subst hdb
  obtain ⟨cats1, ems1, lb1, p1, hrun1, hid1, ht1, hp1⟩ :=
    runInserts_single uid rs hc hp hu cats ems lb p hpid (le_of_eq hc0.symm) (le_of_eq hp0.symm)
  obtain ⟨cats2, ems2, lb2, p2, hrun2, hid2, ht2, hp2⟩ :=
    runDeletes_single uid rs hc hp hu cats1 ems1 lb1 p1 0 0 hid1
      (by rw [ht1, hc0]) (by rw [hp1, hp0]) le_rfl le_rfl
  refine ⟨{ categories := cats2, profiles := [p2], emissions := ems2, leaderboard := lb2 },
    ?_, p2, ?_, ht2, hp2⟩
  · rw [hrun1]
    exact hrun2
  · simp [List.find?, hid2]

/-- Concrete instance of the amended C4: one record with carbon 1, points 1
inserted into zero totals and deleted again. -/
theorem insert_all_delete_all_exact_zero_witness :
    ∃ db', (runInserts [oldW] dbZero).bind (runDeletes [oldW]) = some db' ∧
      ∃ p', db'.profiles.find? (fun q => q.user_id == 1) = some p' ∧
        p'.total_carbon_footprint = 0 ∧ p'.total_green_points = 0 :=
  insert_all_delete_all_exact_zero 1 [oldW] (by decide) (by decide) (by decide)
    dbZero pZero rfl rfl rfl rfl

/-! ### C1: the client submit flow applies the delta twice -/

/-- C1: logging a single `'Food - Meat'` record (quantity 1, carbon 27,
points 0) into totals `(0, 0)` through the client `handleSubmit` flow leaves
`total_carbon_footprint = 54`: the delta is applied once by the AFTER INSERT
trigger and a second time by the explicit `update_user_totals` RPC the client
makes after the insert, so the claimed single application
(`max 0 (0 + 27) = 27`) does not hold. -/
theorem handleSubmit_applies_delta_twice :
    ((handleSubmit 1 5 1 "ate red meat" dbC1).bind
        (fun db' => db'.profiles.find? (fun q => q.user_id == 1))).map
        (fun p => (p.total_carbon_footprint, p.total_green_points))
      = some ((54 : ℚ), (0 : ℤ))
    ∧ ((54 : ℚ) ≠ max 0 (0 + 27)) := by
  constructor
  · have hs : strIncludes "Food - Meat" "Recycling" = false := by decide
    norm_num [handleSubmit, dbC1, meatCat, pZero, carbonAmountOf, greenPointsOf, hs,
      insertEmission, carbon_emissions_after_insert, update_user_totals, applyDeltaProfile,
      upsertLeaderboard, List.find?, Option.bind, Option.getD]
  · norm_num

/-! ### C5: the recycling scenario -/

/-- C5 counterexample: the logger computes
`Math.abs(Math.round(carbonAmount * 10))`; at carbon −4.25 this is
`|round(−42.5)| = |−42| = 42`, not the claimed `round(|−42.5|) = 43` —
the code rounds before taking the absolute value, and JavaScript rounds
−42.5 up to −42. -/
theorem recycling_points_are_42_not_43 :
    carbonAmountOf recyclingCat 5 = -17/4
    ∧ greenPointsOf recyclingCat 5 = 42
    ∧ ((42 : ℤ) ≠ 43) := by
  refine ⟨?_, ?_, by decide⟩
  · norm_num [carbonAmountOf, recyclingCat]
  · have h : strIncludes "Waste - Recycling" "Recycling" = true := by decide
    norm_num [greenPointsOf, recyclingCat, h, carbonAmountOf, jsRound]

/-- C5 (amended): logging quantity 5 against `'Waste - Recycling'`
(factor −0.85) yields `carbon_amount = −4.25` and
`green_points_earned = 42`; a single insert of that record into empty totals
(one trigger application of the insert delta) leaves
`total_carbon_footprint = max 0 (−4.25) = 0` and `total_green_points = 42`. -/
theorem recycling_insert_totals :
    ((insertEmission
          { user_id := 1, category_id := 7, activity_description := "recycled 5kg",
            quantity := 5, carbon_amount := carbonAmountOf recyclingCat 5,
            green_points_earned := greenPointsOf recyclingCat 5 } dbC5).bind
        (fun db' => db'.profiles.find? (fun q => q.user_id == 1))).map
        (fun p => (p.total_carbon_footprint, p.total_green_points))
      = some ((0 : ℚ), (42 : ℤ)) := by
  have h : strIncludes "Waste - Recycling" "Recycling" = true := by decide
  norm_num [insertEmission, carbon_emissions_after_insert, update_user_totals,
    applyDeltaProfile, upsertLeaderboard, dbC5, pZero, recyclingCat, carbonAmountOf,
    greenPointsOf, jsRound, h, List.find?, Option.bind]

/-! ### C6 and C10: the leaderboard projection -/

instance : IsTotal Profile
    (fun a b => a.total_carbon_footprint ≤ b.total_carbon_footprint) :=
  ⟨fun a b => le_total a.total_carbon_footprint b.total_carbon_footprint⟩

instance : IsTrans Profile
    (fun a b => a.total_carbon_footprint ≤ b.total_carbon_footprint) :=
  ⟨fun _ _ _ hab hbc => le_trans hab hbc⟩

theorem mkEntry_user_id (p : Profile) (r : Nat) : (mkEntry p r).user_id = p.user_id := rfl

theorem mem_rankEntries (l : List Profile) :
    ∀ (i : Nat) (e : LeaderboardEntry), e ∈ rankEntries i l →
      ∃ p ∈ l, ∃ r, e = mkEntry p r := by
  induction l with
  | nil =>
    intro i e h
    simp [rankEntries] at h
  | cons p ps ih =>
    intro i e h
    simp only [rankEntries] at h
    rcases List.mem_cons.mp h with he | he
    · exact ⟨p, List.mem_cons_self p ps, i + 1, he⟩
    · obtain ⟨q, hq, r, rfl⟩ := ih (i + 1) e he
      exact ⟨q, List.mem_cons_of_mem p hq, r, rfl⟩

/-- C6 counterexample: the leaderboard query reads `profiles` under row-level
security, and the owner policy makes the viewer's own row visible even with
`show_on_leaderboard = false` — so the opted-out viewer appears (alone) on
their own leaderboard view. -/
theorem fetchLeaderboard_contains_opted_out_viewer :
    fetchLeaderboard 1 dbC6
      = [{ user_id := 1, display_name := "alice", total_footprint := 5, total_points := 0,
           rank := 1 }]
    ∧ pOptOut.show_on_leaderboard = false :=
  ⟨rfl, rfl⟩

/-- C6 (amended): every entry of the rendered leaderboard belongs either to
the viewer themselves (whose row is visible regardless of the flag) or to a
user whose `show_on_leaderboard` is true; in particular no OTHER opted-out
user can ever appear. -/
theorem fetchLeaderboard_only_optin_or_viewer (db : DB) (viewer : UserId)
    (e : LeaderboardEntry) (h : e ∈ fetchLeaderboard viewer db) :
    e.user_id = viewer
    ∨ ∃ p ∈ db.profiles, p.user_id = e.user_id ∧ p.show_on_leaderboard = true := by
  obtain ⟨p, hp, r, rfl⟩ := mem_rankEntries _ 0 e h
  have hp2 : p ∈ sortByFootprint (visibleProfiles viewer db) := List.take_subset 10 _ hp
  unfold sortByFootprint at hp2
  rw [List.mem_insertionSort] at hp2
  unfold visibleProfiles at hp2
  rw [List.mem_filter] at hp2
  obtain ⟨hmem, hcond⟩ := hp2
  rcases (Bool.or_eq_true _ _).mp hcond with hv | hs
  · exact Or.inl (by simpa [mkEntry_user_id] using hv)
  · exact Or.inr ⟨p, hmem, rfl, hs⟩

/-- Concrete instance of the amended C6: an opted-in profile of another user
appears on viewer 1's leaderboard and satisfies the disjunction. -/
theorem fetchLeaderboard_only_optin_or_viewer_witness :
    (mkEntry pIn 1).user_id = 1
    ∨ ∃ p ∈ dbC6w.profiles, p.user_id = (mkEntry pIn 1).user_id
        ∧ p.show_on_leaderboard = true :=
  fetchLeaderboard_only_optin_or_viewer dbC6w 1 (mkEntry pIn 1) (by decide)

theorem length_rankEntries : ∀ (i : Nat) (l : List Profile),
    (rankEntries i l).length = l.length := by
  intro i l
  induction l generalizing i with
  | nil => rfl
  | cons p ps ih => simp [rankEntries, ih]

theorem ranks_rankEntries : ∀ (l : List Profile) (i : Nat),
    ranksPositionalFrom i (rankEntries i l) = true := by
  intro l
  induction l with
  | nil => intro i; rfl
  | cons p ps ih =>
    intro i
    simp [rankEntries, ranksPositionalFrom, mkEntry, ih]

theorem sorted_rankEntries : ∀ (l : List Profile),
    List.Sorted (fun a b : Profile => a.total_carbon_footprint ≤ b.total_carbon_footprint) l →
    ∀ i, List.Sorted (fun a b : LeaderboardEntry => a.total_footprint ≤ b.total_footprint)
      (rankEntries i l) := by
  intro l
  induction l with
  | nil => intro _ i; exact List.sorted_nil
  | cons p ps ih =>
    intro hl i
    rw [List.sorted_cons] at hl
    obtain ⟨hhead, htail⟩ := hl
    show List.Sorted _ (mkEntry p (i + 1) :: rankEntries (i + 1) ps)
    rw [List.sorted_cons]
    refine ⟨?_, ih htail (i + 1)⟩
    intro e he
    obtain ⟨q, hq, r, rfl⟩ := mem_rankEntries ps (i + 1) e he
    exact hhead q hq

/-- C10: for every database state and viewer, the leaderboard projection
returns at most 10 entries, ordered by ascending `total_footprint`, with
`rank` assigned positionally as index + 1. -/
theorem fetchLeaderboard_limit_order_rank (viewer : UserId) (db : DB) :
    (fetchLeaderboard viewer db).length ≤ 10
    ∧ List.Sorted (fun a b : LeaderboardEntry => a.total_footprint ≤ b.total_footprint)
        (fetchLeaderboard viewer db)
    ∧ ranksPositionalFrom 0 (fetchLeaderboard viewer db) = true := by
  refine ⟨?_, ?_, ?_⟩
  · show (rankEntries 0 ((sortByFootprint (visibleProfiles viewer db)).take 10)).length ≤ 10
    rw [length_rankEntries]
    exact List.length_take_le 10 _
  · have hs : List.Sorted
        (fun a b : Profile => a.total_carbon_footprint ≤ b.total_carbon_footprint)
        (sortByFootprint (visibleProfiles viewer db)) :=
      List.sorted_insertionSort _ _
    exact sorted_rankEntries _ (List.Pairwise.sublist (List.take_sublist 10 _) hs) 0
  · exact ranks_rankEntries _ 0

/-! ### C8: the category-percentage computation -/

/-- C8 counterexample: with a grand total of zero (records +1 and −1), the
percentage computation divides by zero, producing Infinity and −Infinity —
not well-defined numbers; no guard exists. -/
theorem categoryBreakdown_divides_by_zero :
    totalEmissionsOf (userEmissions 1 dbC8) = 0
    ∧ (categoryBreakdownFor 1 dbC8).map (fun b => b.percentage)
        = [JsNum.posInf, JsNum.negInf]
    ∧ JsNum.posInf.isFin = false := by
  refine ⟨?_, ?_, rfl⟩
  · norm_num [totalEmissionsOf, userEmissions, dbC8, List.filter, List.foldl]
  · norm_num [categoryBreakdownFor, userEmissions, dbC8, categoryTotals, addToCategory,
      categoryName, totalEmissionsOf, jsDivQ, jsMul100, sortByEmissionsDesc,
      catA, catB, List.filter, List.foldl, List.find?, List.insertionSort, List.orderedInsert]

/-- C8 (amended): whenever the user's grand total of emissions is nonzero,
every produced category percentage is a finite, well-defined number; the
zero-total case has no guard and produces infinities (see counterexample). -/
theorem categoryBreakdown_fin_of_total_ne_zero (db : DB) (uid : UserId)
    (h : totalEmissionsOf (userEmissions uid db) ≠ 0) :
    ∀ b ∈ categoryBreakdownFor uid db, b.percentage.isFin = true := by
  intro b hb
  unfold categoryBreakdownFor sortByEmissionsDesc at hb
  rw [List.mem_insertionSort, List.mem_map] at hb
  obtain ⟨nt, hnt, rfl⟩ := hb
  show (jsMul100 (jsDivQ nt.2 (totalEmissionsOf (userEmissions uid db)))).isFin = true
  unfold jsDivQ
  rw [if_neg h]
  rfl

/-- Concrete instance of the amended C8: one record with carbon 1, so the
grand total is 1 and the single category's percentage is the finite 100. -/
theorem categoryBreakdown_fin_of_total_ne_zero_witness :
    ({ category_name := "A", total_emissions := 1, percentage := JsNum.fin 100 }
        : CategoryBreakdown).percentage.isFin = true :=
  categoryBreakdown_fin_of_total_ne_zero dbC8w 1
    (by norm_num [totalEmissionsOf, userEmissions, dbC8w, List.filter, List.foldl])
    { category_name := "A", total_emissions := 1, percentage := JsNum.fin 100 }
    (by norm_num [categoryBreakdownFor, sortByEmissionsDesc, categoryTotals, addToCategory,
      categoryName, totalEmissionsOf, userEmissions, dbC8w, catA, jsDivQ, jsMul100,
      List.filter, List.foldl, List.find?, List.insertionSort, List.orderedInsert])

end EcoLedger
